import Mathlib

/-!
Shallow embedding of the `2do` todo service (Go, gin + MySQL), covering the
layers the specification's claims are about:

* the SQL repository `src/internal/todo/repo.go` (`sqlrepo.List/Get/Create/
  Update/Delete`) together with a relational model of the `todos` table,
* the business layer `src/internal/todo/service.go`,
* the HTTP handler layer `src/internal/todo/handler.go`, including the
  strict JSON body decoder `decodeIntoInput` and the id-parameter parsing
  via `strconv.ParseUint(i, 10, 32)`.

The database is modelled as the list of rows of the `todos` table plus the
auto-increment counter.  Duplicate ids are representable on purpose: the
repository's row-count checks exist to surface exactly that corruption.

Row-count semantics: the connection is opened by `database.Open` with a
go-sql-driver/mysql DSN that does not set `clientFoundRows`, so
`Result.RowsAffected` for an UPDATE reports the number of rows MySQL
actually *changed* (a matched row whose column values are already equal to
the assigned values is not counted, and its `updated_at` ON UPDATE clause
does not fire).  `sqlUpdate` below models this.  The table schema
(migrations) is not under `src/`; the `created_at`/`updated_at` columns are
modelled from the spec: store-assigned, maintained by the store on every
mutation that changes a row.
-/

namespace TwoDo

/-- A row of the `todos` table, also the JSON entity `Todo` of
`src/internal/todo/todo.go` (id, text, completed, created_at, updated_at).
Timestamps are abstracted as naturals. -/
structure Todo where
  id : Nat
  text : String
  completed : Bool
  createdAt : Nat
  updatedAt : Nat
deriving Repr, DecidableEq

/-- The request payload `TodoInput` of `src/internal/todo/todo.go`:
`Text *string` and `Completed *bool`; `none` models a nil pointer (field
absent from the JSON body). -/
structure TodoInput where
  text : Option String
  completed : Option Bool
deriving Repr, DecidableEq

/-- State of the `todos` table: its rows (in table order) and the
auto-increment counter for the next assigned id. -/
structure DB where
  rows : List Todo
  nextId : Nat
deriving Repr, DecidableEq

/-- The error values that flow between repository, service and handler.
`notFound` is `ErrNotFound`, `multipleRowsAffected` is
`ErrMultipleRowsAffected`, `inputInvalid` is `ErrInputInvalid`,
`sqlNoRows` is a raw `sql.ErrNoRows` that escaped unmapped, and
`dbFailure` is any other driver/store error carrying its message.
The service wraps `ErrNotFound` with `fmt.Errorf("%w: ...")`, which
preserves the `errors.Is` identity that the handlers test; the embedding
tracks that identity via the constructor. -/
inductive AppErr where
  | notFound
  | multipleRowsAffected
  | inputInvalid
  | sqlNoRows
  | dbFailure (msg : String)
deriving Repr, DecidableEq

/-- Predicate of the SQL clause `WHERE id=?`. -/
def idMatch (id : Nat) (t : Todo) : Bool := t.id == id

/-- Model of `SELECT id, text, completed, created_at, updated_at FROM
todos WHERE id=?` read through `QueryRowContext`: the first matching row,
or `none` for `sql.ErrNoRows`. -/
def selectById (db : DB) (id : Nat) : Option Todo :=
  db.rows.find? (idMatch id)

/-- Value assigned to the `text` column by
`SET text = IFNULL(?, text)`. -/
def newText (i : TodoInput) (t : Todo) : String := i.text.getD t.text

/-- Value assigned to the `completed` column by
`SET completed = IFNULL(?, completed)`. -/
def newCompleted (i : TodoInput) (t : Todo) : Bool :=
  i.completed.getD t.completed

/-- Whether the UPDATE actually changes the row.  MySQL counts a row in
`RowsAffected` only if some assigned value differs from the current one
(the DSN does not set `clientFoundRows`). -/
def rowChanged (i : TodoInput) (t : Todo) : Bool :=
  !(newText i t == t.text && newCompleted i t == t.completed)

/-- Effect of the UPDATE statement on a matched row: assign both columns
(IFNULL keeps the stored value when the parameter is NULL); the
store-maintained `updated_at` advances only when the row actually
changes. -/
def applyIfnull (i : TodoInput) (now : Nat) (t : Todo) : Todo :=
  if rowChanged i t then
    { t with text := newText i t, completed := newCompleted i t, updatedAt := now }
  else t

/-- Model of `UPDATE todos SET text = IFNULL(?, text), completed =
IFNULL(?, completed) WHERE id=?`: the new table state and
`Result.RowsAffected` (number of matched rows actually changed). -/
def sqlUpdate (db : DB) (id : Nat) (i : TodoInput) (now : Nat) : DB × Nat :=
  (⟨db.rows.map (fun t => if idMatch id t then applyIfnull i now t else t), db.nextId⟩,
   (db.rows.filter (fun t => idMatch id t && rowChanged i t)).length)

/-- Model of `DELETE FROM todos WHERE id=?`: the new table state and
`Result.RowsAffected` (number of deleted rows). -/
def sqlDelete (db : DB) (id : Nat) : DB × Nat :=
  (⟨db.rows.filter (fun t => !(idMatch id t)), db.nextId⟩,
   (db.rows.filter (fun t => idMatch id t)).length)

/-- Model of `INSERT INTO todos (text, completed) VALUES (?, ?)` with both
parameters non-NULL: the row is appended with the auto-increment id and
store-assigned timestamps; the returned number is `LastInsertId`. -/
def sqlInsert (db : DB) (txt : String) (c : Bool) (now : Nat) : DB × Nat :=
  (⟨db.rows ++ [⟨db.nextId, txt, c, now, now⟩], db.nextId + 1⟩, db.nextId)

/-- `sqlrepo.List` (repo.go): returns all rows. -/
def Repo.list (db : DB) : Except AppErr (List Todo) := .ok db.rows

/-- `sqlrepo.Get` (repo.go): single-row SELECT; `sql.ErrNoRows` is mapped
to `ErrNotFound`. -/
def Repo.get (db : DB) (id : Nat) : Except AppErr Todo :=
  match selectById db id with
  | some t => .ok t
  | none => .error .notFound

/-- `sqlrepo.Create` (repo.go): INSERT, then `LastInsertId`, then a
read-back SELECT of the full persisted row.  A read-back miss is returned
as the raw `sql.ErrNoRows`, not `ErrNotFound` (unlike `Get` and `Update`,
`Create` has no `errors.Is(err, sql.ErrNoRows)` branch).  The `text` and
`completed` columns are NOT NULL (modelled from the spec's data model;
the migrations are not under `src/`), so inserting a nil parameter is a
store error; every caller path reaches `Create` with both present. -/
def Repo.create (db : DB) (i : TodoInput) (now : Nat) : Except AppErr Todo × DB :=
  match i.text, i.completed with
  | some txt, some c =>
    (match selectById (sqlInsert db txt c now).1 (sqlInsert db txt c now).2 with
     | some t => .ok t
     | none => .error .sqlNoRows, (sqlInsert db txt c now).1)
  | _, _ => (.error (.dbFailure "column may not be NULL"), db)

/-- `sqlrepo.Update` (repo.go): UPDATE, then `RowsAffected`; more than one
affected row is `ErrMultipleRowsAffected`; otherwise a read-back SELECT
decides the outcome, with `sql.ErrNoRows` mapped to `ErrNotFound`.
There is no `rows == 0` branch. -/
def Repo.update (db : DB) (id : Nat) (i : TodoInput) (now : Nat) :
    Except AppErr Todo × DB :=
  if (sqlUpdate db id i now).2 > 1 then
    (.error .multipleRowsAffected, (sqlUpdate db id i now).1)
  else
    match selectById (sqlUpdate db id i now).1 id with
    | none => (.error .notFound, (sqlUpdate db id i now).1)
    | some t => (.ok t, (sqlUpdate db id i now).1)

/-- `sqlrepo.Delete` (repo.go): DELETE, then `RowsAffected`; zero rows is
`ErrNotFound`, more than one is `ErrMultipleRowsAffected`, exactly one is
success. -/
def Repo.delete (db : DB) (id : Nat) : Except AppErr Unit × DB :=
  if (sqlDelete db id).2 == 0 then (.error .notFound, (sqlDelete db id).1)
  else if (sqlDelete db id).2 != 1 then
    (.error .multipleRowsAffected, (sqlDelete db id).1)
  else (.ok (), (sqlDelete db id).1)

/-- `service.GetAll` (service.go). -/
def Service.getAll (db : DB) : Except AppErr (List Todo) := Repo.list db

/-- `service.GetById` (service.go): wraps `ErrNotFound` with the id; the
`errors.Is` identity is unchanged. -/
def Service.getById (db : DB) (id : Nat) : Except AppErr Todo := Repo.get db id

/-- `service.Create` (service.go): rejects a nil `Text` as
`ErrInputInvalid`, otherwise delegates to the repository.  There is no
check on the *content* of the text (an empty string passes). -/
def Service.create (db : DB) (now : Nat) (i : TodoInput) :
    Except AppErr Todo × DB :=
  if i.text.isNone then (.error .inputInvalid, db)
  else Repo.create db i now

/-- `service.Update` (service.go): rejects an input with both fields nil
as `ErrInputInvalid`, otherwise delegates to the repository. -/
def Service.update (db : DB) (now : Nat) (id : Nat) (i : TodoInput) :
    Except AppErr Todo × DB :=
  if i.text.isNone && i.completed.isNone then (.error .inputInvalid, db)
  else Repo.update db id i now

/-- `service.Delete` (service.go): delegates to the repository, keeping
the `errors.Is` identity of the error. -/
def Service.delete (db : DB) (id : Nat) : Except AppErr Unit × DB :=
  Repo.delete db id

/-! JSON body model and the strict decoder `decodeIntoInput` of
handler.go. -/

/-- A decoded JSON value as far as the decoder distinguishes them: an
explicit `null`, a boolean, a string, or anything else (number, array,
nested object), which can populate neither field of `TodoInput`. -/
inductive JVal where
  | null
  | jbool (b : Bool)
  | jstr (s : String)
  | other
deriving Repr, DecidableEq

/-- The request body as seen by `ShouldBindJSON` into
`map[string]*json.RawMessage`: either not a single JSON object (invalid
JSON, wrong top-level type, empty body), or an object given as its field
list in source order (duplicate keys possible; the map keeps the last). -/
inductive Body where
  | malformed
  | obj (fields : List (String × JVal))
deriving Repr, DecidableEq

/-- Replaces the binding of `k` (keeping its position) or appends it. -/
def upsert (m : List (String × JVal)) (k : String) (v : JVal) :
    List (String × JVal) :=
  match m with
  | [] => [(k, v)]
  | kv :: rest => if kv.1 == k then (k, v) :: rest else kv :: upsert rest k v

/-- The Go map built from the object's fields: duplicate keys collapse to
the last value.  (Go's map iteration order is unspecified; the embedding
fixes first-occurrence order, which no claim depends on.) -/
def collapse (fields : List (String × JVal)) : List (String × JVal) :=
  fields.foldl (fun m kv => upsert m kv.1 kv.2) []

/-- Rejection reasons of `decodeIntoInput`: some field was an explicit
null (message "field %q cannot be null"), or anything else ("invalid
json input": unparseable body, unknown field, wrong field type). -/
inductive DecodeErr where
  | nullField (k : String)
  | invalidJson
deriving Repr, DecidableEq

/-- Whether a (non-null) field is a known field of the right type for the
struct decode with `DisallowUnknownFields`. -/
def fieldWellTyped (kv : String × JVal) : Bool :=
  match kv with
  | ("text", .jstr _) => true
  | ("completed", .jbool _) => true
  | _ => false

/-- The `Text` pointer produced by the struct decode. -/
def readText (m : List (String × JVal)) : Option String :=
  match m.find? (fun kv => kv.1 == "text") with
  | some (_, .jstr s) => some s
  | _ => none

/-- The `Completed` pointer produced by the struct decode. -/
def readCompleted (m : List (String × JVal)) : Option Bool :=
  match m.find? (fun kv => kv.1 == "completed") with
  | some (_, .jbool b) => some b
  | _ => none

/-- Approximation of Go's `%q` for a JSON key. -/
def quoteKey (k : String) : String := "\"" ++ k ++ "\""

/-- The error text of a `DecodeErr`, as put into the 400 response body. -/
def decodeErrMsg : DecodeErr → String
  | .nullField k => "field " ++ quoteKey k ++ " cannot be null"
  | .invalidJson => "invalid json input"

/-- `decodeIntoInput` (handler.go): bind the body into a raw map, reject
any field explicitly set to null, re-marshal and decode into `TodoInput`
with `DisallowUnknownFields`, rejecting unknown fields and type
mismatches. -/
def decodeIntoInput (b : Body) : Except DecodeErr TodoInput :=
  match b with
  | .malformed => .error .invalidJson
  | .obj fields =>
    let m := collapse fields
    match m.find? (fun kv => kv.2 == JVal.null) with
    | some kv => .error (.nullField kv.1)
    | none =>
      if m.all fieldWellTyped then .ok ⟨readText m, readCompleted m⟩
      else .error .invalidJson

/-! HTTP layer: requests, responses, the abstract service the handlers
call (handler_test.go drives the handlers through exactly such a mock),
and the six handlers of handler.go. -/

/-- Numeric value of a base-10 digit string. -/
def digitsVal (s : String) : Nat :=
  s.data.foldl (fun acc c => acc * 10 + (c.toNat - 48)) 0

/-- Model of `strconv.ParseUint(i, 10, 32)` on the `:id` path parameter:
digits only (no sign, no other characters), non-empty, value below
`2^32`; `none` models a parse error. -/
def parseUint32 (s : String) : Option Nat :=
  if s.isEmpty then none
  else if s.data.all Char.isDigit then
    if digitsVal s < 4294967296 then some (digitsVal s) else none
  else none

/-- The parts of the HTTP request the handlers read: the media type
extracted by `ctx.ContentType()`, the `:id` path parameter, and the
body. -/
structure Request where
  contentType : String
  idParam : String
  body : Body
deriving Repr, DecidableEq

/-- A response body: empty (`ctx.JSON(status, nil)`), a list of todos, a
single todo, or an error object `gin.H` with key "error" and the given
message. -/
inductive RBody where
  | empty
  | todoList (ts : List Todo)
  | oneTodo (t : Todo)
  | errMsg (s : String)
deriving Repr, DecidableEq

/-- An HTTP response: status, body and the optional Location header. -/
structure Response where
  status : Nat
  body : RBody
  location : Option String
deriving Repr, DecidableEq

/-- A response with no Location header. -/
def jsonResp (status : Nat) (b : RBody) : Response := ⟨status, b, none⟩

/-- The error text of an `AppErr` as rendered by `err.Error()` into
error-response bodies.  The texts of `ErrNotFound`,
`ErrMultipleRowsAffected` and `ErrInputInvalid` are defined in a file not
under `src/`; the concrete strings below stand in for them (no claim
depends on them).  `dbFailure` renders its underlying message. -/
def appErrMsg : AppErr → String
  | .notFound => "todo not found"
  | .multipleRowsAffected => "multiple rows affected"
  | .inputInvalid => "invalid input"
  | .sqlNoRows => "sql: no rows in result set"
  | .dbFailure msg => msg

/-- The service interface the handlers call, with explicit store state of
type `σ` threaded through each call (the real handlers hold a `Service`
whose state is the database). -/
structure Svc (σ : Type) where
  getAll : σ → Except AppErr (List Todo) × σ
  getById : σ → Nat → Except AppErr Todo × σ
  create : σ → TodoInput → Except AppErr Todo × σ
  update : σ → Nat → TodoInput → Except AppErr Todo × σ
  delete : σ → Nat → Except AppErr Unit × σ

/-- The real service over the database model (`now` is the store clock at
this request). -/
def dbSvc (now : Nat) : Svc DB where
  getAll db := (Service.getAll db, db)
  getById db id := (Service.getById db id, db)
  create db i := Service.create db now i
  update db id i := Service.update db now id i
  delete db id := Service.delete db id

/-- `Handler.getAll` (handler.go): 200 with the list, or an opaque 500. -/
def Handler.getAll {σ : Type} (s : Svc σ) (st : σ) : Response × σ :=
  match s.getAll st with
  | (.ok ts, st2) => (jsonResp 200 (.todoList ts), st2)
  | (.error _, st2) => (jsonResp 500 (.errMsg "unexpected error"), st2)

/-- `Handler.getById` (handler.go): parse the id, then 200, 404 for
`ErrNotFound`, or an opaque 500. -/
def Handler.getById {σ : Type} (s : Svc σ) (st : σ) (req : Request) :
    Response × σ :=
  match parseUint32 req.idParam with
  | none => (jsonResp 400 (.errMsg "ID must be an integer"), st)
  | some id =>
    match s.getById st id with
    | (.ok t, st2) => (jsonResp 200 (.oneTodo t), st2)
    | (.error e, st2) =>
      if e = .notFound then (jsonResp 404 (.errMsg (appErrMsg e)), st2)
      else (jsonResp 500 (.errMsg "unexpected error"), st2)

/-- `Handler.post` (handler.go): Content-Type gate, strict decode,
required `text`, defaulting of `completed` to false, then create; 201
with Location on success, 422 for `ErrInputInvalid`, opaque 500
otherwise. -/
def Handler.post {σ : Type} (s : Svc σ) (st : σ) (req : Request) :
    Response × σ :=
  if req.contentType ≠ "application/json" then
    (jsonResp 415 (.errMsg "Content-Type must be application/json"), st)
  else
    match decodeIntoInput req.body with
    | .error e => (jsonResp 400 (.errMsg (decodeErrMsg e)), st)
    | .ok input =>
      if input.text = none then
        (jsonResp 400 (.errMsg "missing field - provide text field"), st)
      else
        match s.create st ⟨input.text, some (input.completed.getD false)⟩ with
        | (.ok t, st2) =>
          (⟨201, .oneTodo t, some ("/todos/" ++ toString t.id)⟩, st2)
        | (.error e, st2) =>
          if e = .inputInvalid then (jsonResp 422 (.errMsg (appErrMsg e)), st2)
          else (jsonResp 500 (.errMsg "unexpected error"), st2)

/-- `Handler.put` (handler.go): Content-Type gate, id parse, strict
decode, both fields required, then update; 200 on success, 422 for
`ErrInputInvalid`, 404 for `ErrNotFound`, opaque 500 otherwise. -/
def Handler.put {σ : Type} (s : Svc σ) (st : σ) (req : Request) :
    Response × σ :=
  if req.contentType ≠ "application/json" then
    (jsonResp 415 (.errMsg "Content-Type must be application/json"), st)
  else
    match parseUint32 req.idParam with
    | none => (jsonResp 400 (.errMsg "ID must be an integer"), st)
    | some id =>
      match decodeIntoInput req.body with
      | .error e => (jsonResp 400 (.errMsg (decodeErrMsg e)), st)
      | .ok input =>
        if input.text = none ∨ input.completed = none then
          (jsonResp 400
            (.errMsg "missing field - provide both text and completed fields"), st)
        else
          match s.update st id input with
          | (.ok t, st2) => (jsonResp 200 (.oneTodo t), st2)
          | (.error e, st2) =>
            if e = .inputInvalid then
              (jsonResp 422 (.errMsg (appErrMsg e)), st2)
            else if e = .notFound then
              (jsonResp 404 (.errMsg (appErrMsg e)), st2)
            else (jsonResp 500 (.errMsg "unexpected error"), st2)

/-- `Handler.patch` (handler.go): like `put` but at least one of the two
fields must be present. -/
def Handler.patch {σ : Type} (s : Svc σ) (st : σ) (req : Request) :
    Response × σ :=
  if req.contentType ≠ "application/json" then
    (jsonResp 415 (.errMsg "Content-Type must be application/json"), st)
  else
    match parseUint32 req.idParam with
    | none => (jsonResp 400 (.errMsg "ID must be an integer"), st)
    | some id =>
      match decodeIntoInput req.body with
      | .error e => (jsonResp 400 (.errMsg (decodeErrMsg e)), st)
      | .ok input =>
        if input.text = none ∧ input.completed = none then
          (jsonResp 400
            (.errMsg "text and completed fields missing - provide at least one"), st)
        else
          match s.update st id input with
          | (.ok t, st2) => (jsonResp 200 (.oneTodo t), st2)
          | (.error e, st2) =>
            if e = .inputInvalid then
              (jsonResp 422 (.errMsg (appErrMsg e)), st2)
            else if e = .notFound then
              (jsonResp 404 (.errMsg (appErrMsg e)), st2)
            else (jsonResp 500 (.errMsg "unexpected error"), st2)

/-- `Handler.delete` (handler.go): id parse, then delete; 204 on success,
404 for `ErrNotFound`, opaque 500 otherwise.  No Content-Type gate. -/
def Handler.delete {σ : Type} (s : Svc σ) (st : σ) (req : Request) :
    Response × σ :=
  match parseUint32 req.idParam with
  | none => (jsonResp 400 (.errMsg "ID must be an integer"), st)
  | some id =>
    match s.delete st id with
    | (.ok _, st2) => (jsonResp 204 .empty, st2)
    | (.error e, st2) =>
      if e = .notFound then (jsonResp 404 (.errMsg (appErrMsg e)), st2)
      else (jsonResp 500 (.errMsg "unexpected error"), st2)

/-! Auxiliary service instances used to state claims, mirroring the mock
service of handler_test.go. -/

/-- A service whose every operation fails with the fixed error `e`
(state unchanged). -/
def constSvc (e : AppErr) : Svc Unit where
  getAll st := (.error e, st)
  getById st _ := (.error e, st)
  create st _ := (.error e, st)
  update st _ _ := (.error e, st)
  delete st _ := (.error e, st)

/-- A service that records every id it is invoked with, to observe which
id a handler forwards to the store. -/
def recSvc : Svc (List Nat) where
  getAll st := (.ok [], st)
  getById st id := (.error .notFound, st ++ [id])
  create st _ := (.error .inputInvalid, st)
  update st id _ := (.error .notFound, st ++ [id])
  delete st id := (.ok (), st ++ [id])

/-- A service whose `create` returns the given fixed outcome, as when the
repository's create is driven by mocked SQL results. -/
def createOutcomeSvc (res : Except AppErr Todo) : Svc Unit where
  getAll st := (.ok [], st)
  getById st _ := (.error .notFound, st)
  create st _ := (res, st)
  update st _ _ := (.error .notFound, st)
  delete st _ := (.ok (), st)

/-! Control-flow model of `sqlrepo.Create` over abstract SQL outcomes,
as the repository unit tests drive it through sqlmock. -/

/-- Outcome of a single SQL call: `noRows` is `sql.ErrNoRows`, `fail` any
other driver error. -/
inductive SqlErr where
  | noRows
  | fail (msg : String)
deriving Repr, DecidableEq

/-- An unmapped SQL error as it leaves the repository. -/
def sqlErrToApp : SqlErr → AppErr
  | .noRows => .sqlNoRows
  | .fail msg => .dbFailure msg

/-- The control flow of `sqlrepo.Create` (repo.go): run the INSERT (whose
success yields `LastInsertId`), then the read-back SELECT on that id; any
read-back error — including `sql.ErrNoRows` — is returned unmapped.
`Create` has no branch translating `sql.ErrNoRows` to `ErrNotFound`. -/
def createFlow (execRes : Except SqlErr Nat)
    (readBack : Nat → Except SqlErr Todo) : Except AppErr Todo :=
  match execRes with
  | .error e => .error (sqlErrToApp e)
  | .ok id =>
    match readBack id with
    | .error e => .error (sqlErrToApp e)
    | .ok t => .ok t

/-- Well-formedness of the table under the intended schema: the id column
is unique, and every id is below the auto-increment counter. -/
def WF (db : DB) : Prop :=
  (db.rows.map (fun t => t.id)).Nodup ∧ ∀ t ∈ db.rows, t.id < db.nextId

instance (db : DB) : Decidable (WF db) := by
  unfold WF; infer_instance

deriving instance DecidableEq for Except

/-! Helper lemmas about the table model. -/

theorem applyIfnull_id (i : TodoInput) (now : Nat) (t : Todo) :
    (applyIfnull i now t).id = t.id := by
  unfold applyIfnull; split <;> rfl

theorem idMatch_iff {id : Nat} {t : Todo} : idMatch id t = true ↔ t.id = id := by
  simp [idMatch]

theorem idMatch_applyIfnull (id : Nat) (i : TodoInput) (now : Nat) (t : Todo) :
    idMatch id (applyIfnull i now t) = idMatch id t := by
  unfold idMatch; rw [applyIfnull_id]

theorem length_filter_idMatch_le_one {rows : List Todo} {id : Nat}
    (h : (rows.map (fun t => t.id)).Nodup) :
    (rows.filter (fun t => idMatch id t)).length ≤ 1 := by
  induction rows with
  | nil => simp
  | cons a l ih =>
    simp only [List.map_cons, List.nodup_cons] at h
    obtain ⟨ha, hl⟩ := h
    by_cases hm : idMatch id a = true
    · have hnil : l.filter (fun t => idMatch id t) = [] := by
        rw [List.filter_eq_nil_iff]
        intro t ht hmt
        apply ha
        rw [idMatch_iff] at hm hmt
        rw [hm, ← hmt]
        exact List.mem_map_of_mem _ ht
      rw [List.filter_cons_of_pos hm, hnil]
      simp
    · rw [List.filter_cons_of_neg hm]
      exact ih hl

theorem length_filter_and_le (rows : List Todo) (p q : Todo → Bool) :
    (rows.filter (fun t => p t && q t)).length ≤ (rows.filter (fun t => p t)).length := by
  induction rows with
  | nil => simp
  | cons a l ih =>
    by_cases hp : p a = true
    · by_cases hq : q a = true
      · rw [List.filter_cons_of_pos (by simp [hp, hq]), List.filter_cons_of_pos hp]
        simpa using ih
      · rw [List.filter_cons_of_neg (by simp [hp, hq]), List.filter_cons_of_pos hp]
        exact Nat.le_succ_of_le ih
    · rw [List.filter_cons_of_neg (by simp [hp]), List.filter_cons_of_neg hp]
      exact ih

theorem find?_map_ite (rows : List Todo) (id : Nat) (i : TodoInput) (now : Nat) :
    (rows.map (fun t => if idMatch id t then applyIfnull i now t else t)).find?
        (fun t => idMatch id t)
      = (rows.find? (fun t => idMatch id t)).map (applyIfnull i now) := by
  induction rows with
  | nil => rfl
  | cons a l ih =>
    by_cases hm : idMatch id a = true
    · simp only [List.map_cons, if_pos hm]
      rw [List.find?_cons_of_pos _ (by rw [idMatch_applyIfnull]; exact hm),
        List.find?_cons_of_pos _ hm]
      rfl
    · simp only [List.map_cons, if_neg hm]
      rw [List.find?_cons_of_neg _ hm, List.find?_cons_of_neg _ hm]
      exact ih

theorem find?_append_fresh (rows : List Todo) (r : Todo)
    (h : ∀ t ∈ rows, t.id ≠ r.id) :
    (rows ++ [r]).find? (fun t => idMatch r.id t) = some r := by
  induction rows with
  | nil =>
    rw [List.nil_append]
    exact List.find?_cons_of_pos _ (idMatch_iff.mpr rfl)
  | cons a l ih =>
    have hne : ¬ (idMatch r.id a = true) := by
      rw [idMatch_iff]
      exact h a (by simp)
    rw [List.cons_append, List.find?_cons_of_neg _ hne]
    exact ih (fun t ht => h t (by simp [ht]))

theorem sqlUpdate_state_of_zero {db : DB} {id : Nat} {i : TodoInput} {now : Nat}
    (h : (sqlUpdate db id i now).2 = 0) :
    (sqlUpdate db id i now).1 = db := by
  unfold sqlUpdate at h ⊢
  simp only at h ⊢
  have hnil := List.length_eq_zero.mp h
  rw [List.filter_eq_nil_iff] at hnil
  have hmap : db.rows.map (fun t => if idMatch id t then applyIfnull i now t else t)
      = db.rows.map (fun t => t) := by
    apply List.map_congr_left
    intro t ht
    by_cases hm : idMatch id t = true
    · rw [if_pos hm]
      have hch : ¬ (rowChanged i t = true) := by
        intro hch
        exact hnil t ht (by simp [hm, hch])
      unfold applyIfnull
      rw [if_neg hch]
    · rw [if_neg hm]
  rw [hmap, List.map_id']

theorem WF_sqlUpdate {db : DB} (h : WF db) (id : Nat) (i : TodoInput) (now : Nat) :
    WF (sqlUpdate db id i now).1 := by
  obtain ⟨hnd, hlt⟩ := h
  constructor
  · show ((db.rows.map (fun t => if idMatch id t then applyIfnull i now t else t)).map
      (fun t => t.id)).Nodup
    rw [List.map_map]
    have : db.rows.map ((fun t => t.id) ∘
        (fun t => if idMatch id t then applyIfnull i now t else t))
        = db.rows.map (fun t => t.id) := by
      apply List.map_congr_left
      intro t _
      by_cases hm : idMatch id t = true
      · simp only [Function.comp, if_pos hm, applyIfnull_id]
      · simp only [Function.comp, if_neg hm]
    rw [this]
    exact hnd
  · intro t ht
    simp only [sqlUpdate] at ht ⊢
    rw [List.mem_map] at ht
    obtain ⟨u, hu, rfl⟩ := ht
    by_cases hm : idMatch id u = true
    · rw [if_pos hm, applyIfnull_id]
      exact hlt u hu
    · rw [if_neg hm]
      exact hlt u hu

theorem WF_sqlDelete {db : DB} (h : WF db) (id : Nat) :
    WF (sqlDelete db id).1 := by
  obtain ⟨hnd, hlt⟩ := h
  constructor
  · exact List.Nodup.sublist ((List.filter_sublist db.rows).map _) hnd
  · intro t ht
    exact hlt t (List.mem_of_mem_filter ht)

theorem selectById_found {db : DB} {id : Nat} {t : Todo}
    (h : selectById db id = some t) : t.id = id ∧ t ∈ db.rows :=
  ⟨idMatch_iff.mp (List.find?_some h), List.mem_of_find?_eq_some h⟩

theorem sqlUpdate_affected_le_one {db : DB} (h : WF db) (id : Nat) (i : TodoInput)
    (now : Nat) : (sqlUpdate db id i now).2 ≤ 1 :=
  Nat.le_trans (length_filter_and_le db.rows (fun t => idMatch id t) (rowChanged i))
    (length_filter_idMatch_le_one h.1)

theorem repoUpdate_found {db : DB} {id : Nat} {t : Todo} (hWF : WF db)
    (h : selectById db id = some t) (i : TodoInput) (now : Nat) :
    Repo.update db id i now = (.ok (applyIfnull i now t), (sqlUpdate db id i now).1) ∧
    selectById (sqlUpdate db id i now).1 id = some (applyIfnull i now t) := by
  have hle := sqlUpdate_affected_le_one hWF id i now
  have hsel : selectById (sqlUpdate db id i now).1 id = some (applyIfnull i now t) := by
    unfold selectById sqlUpdate
    simp only
    rw [find?_map_ite]
    unfold selectById at h
    rw [h]
    rfl
  refine ⟨?_, hsel⟩
  unfold Repo.update
  rw [if_neg (by omega), hsel]

theorem sqlDelete_affected_of_found {db : DB} {id : Nat} {t : Todo} (hWF : WF db)
    (h : selectById db id = some t) : (sqlDelete db id).2 = 1 := by
  have hle : (db.rows.filter (fun u => idMatch id u)).length ≤ 1 :=
    length_filter_idMatch_le_one hWF.1
  have hmem : t ∈ db.rows.filter (fun u => idMatch id u) := by
    rw [List.mem_filter]
    exact ⟨List.mem_of_find?_eq_some h, List.find?_some h⟩
  have hpos : 0 < (db.rows.filter (fun u => idMatch id u)).length :=
    List.length_pos_of_mem hmem
  show (db.rows.filter (fun u => idMatch id u)).length = 1
  omega

theorem repoDelete_found {db : DB} {id : Nat} {t : Todo} (hWF : WF db)
    (h : selectById db id = some t) :
    Repo.delete db id = (.ok (), (sqlDelete db id).1) ∧
    selectById (sqlDelete db id).1 id = none := by
  have h1 := sqlDelete_affected_of_found hWF h
  constructor
  · unfold Repo.delete
    rw [h1]
    rfl
  · unfold selectById sqlDelete
    simp only
    rw [List.find?_eq_none]
    intro u hu
    rw [List.mem_filter] at hu
    simp only [Bool.not_eq_true'] at hu
    rw [hu.2]
    simp

theorem repoDelete_missing {db : DB} {id : Nat}
    (h : selectById db id = none) :
    Repo.delete db id = (.error .notFound, (sqlDelete db id).1) := by
  have haff : (sqlDelete db id).2 = 0 := by
    unfold selectById at h
    rw [List.find?_eq_none] at h
    show (db.rows.filter (fun u => idMatch id u)).length = 0
    rw [List.length_eq_zero, List.filter_eq_nil_iff]
    exact h
  unfold Repo.delete
  rw [haff]
  rfl

theorem repoCreate_fresh {db : DB} (hWF : WF db) (txt : String) (c : Bool) (now : Nat) :
    Repo.create db ⟨some txt, some c⟩ now =
      (.ok ⟨db.nextId, txt, c, now, now⟩,
       ⟨db.rows ++ [⟨db.nextId, txt, c, now, now⟩], db.nextId + 1⟩) ∧
    selectById ⟨db.rows ++ [⟨db.nextId, txt, c, now, now⟩], db.nextId + 1⟩ db.nextId
      = some ⟨db.nextId, txt, c, now, now⟩ := by
  have hfresh : ∀ u ∈ db.rows, u.id ≠ (⟨db.nextId, txt, c, now, now⟩ : Todo).id := by
    intro u hu
    have := hWF.2 u hu
    simp only
    omega
  have hfind := find?_append_fresh db.rows ⟨db.nextId, txt, c, now, now⟩ hfresh
  have hsel : selectById ⟨db.rows ++ [⟨db.nextId, txt, c, now, now⟩], db.nextId + 1⟩
      db.nextId = some ⟨db.nextId, txt, c, now, now⟩ := hfind
  refine ⟨?_, hsel⟩
  unfold Repo.create
  simp only
  rw [show selectById (sqlInsert db txt c now).1 (sqlInsert db txt c now).2
      = some ⟨db.nextId, txt, c, now, now⟩ from hsel]
  rfl

theorem applyIfnull_fields (i : TodoInput) (now : Nat) (t : Todo) :
    (applyIfnull i now t).text = newText i t ∧
    (applyIfnull i now t).completed = newCompleted i t := by
  unfold applyIfnull
  by_cases h : rowChanged i t = true
  · rw [if_pos h]
    exact ⟨rfl, rfl⟩
  · rw [if_neg h]
    unfold rowChanged at h
    rw [Bool.not_eq_true, Bool.not_eq_false'] at h
    rw [Bool.and_eq_true, beq_iff_eq, beq_iff_eq] at h
    exact ⟨h.1.symm, h.2.symm⟩

theorem serviceCreate_some {db : DB} (hWF : WF db) (txt : String) (c : Bool)
    (now : Nat) :
    Service.create db now ⟨some txt, some c⟩ =
      (.ok ⟨db.nextId, txt, c, now, now⟩,
       ⟨db.rows ++ [⟨db.nextId, txt, c, now, now⟩], db.nextId + 1⟩) := by
  unfold Service.create
  rw [if_neg (by simp)]
  exact (repoCreate_fresh hWF txt c now).1

theorem handlerPost_decoded {σ : Type} (sv : Svc σ) (st : σ) (req : Request)
    (txt : String) (ic : Option Bool)
    (hct : req.contentType = "application/json")
    (hdec : decodeIntoInput req.body = .ok ⟨some txt, ic⟩) :
    Handler.post sv st req =
      (match sv.create st ⟨some txt, some (ic.getD false)⟩ with
       | (.ok t, st2) => (⟨201, .oneTodo t, some ("/todos/" ++ toString t.id)⟩, st2)
       | (.error e, st2) =>
         if e = .inputInvalid then (jsonResp 422 (.errMsg (appErrMsg e)), st2)
         else (jsonResp 500 (.errMsg "unexpected error"), st2)) := by
  unfold Handler.post
  rw [if_neg (by simp [hct]), hdec]
  rfl

theorem handlerPut_decoded {σ : Type} (sv : Svc σ) (st : σ) (req : Request)
    (pid : Nat) (txt : String) (b : Bool)
    (hct : req.contentType = "application/json")
    (hp : parseUint32 req.idParam = some pid)
    (hdec : decodeIntoInput req.body = .ok ⟨some txt, some b⟩) :
    Handler.put sv st req =
      (match sv.update st pid ⟨some txt, some b⟩ with
       | (.ok t, st2) => (jsonResp 200 (.oneTodo t), st2)
       | (.error e, st2) =>
         if e = .inputInvalid then (jsonResp 422 (.errMsg (appErrMsg e)), st2)
         else if e = .notFound then (jsonResp 404 (.errMsg (appErrMsg e)), st2)
         else (jsonResp 500 (.errMsg "unexpected error"), st2)) := by
  unfold Handler.put
  rw [if_neg (by simp [hct]), hp, hdec]
  rfl

theorem handlerPatch_decoded {σ : Type} (sv : Svc σ) (st : σ) (req : Request)
    (pid : Nat) (i : TodoInput)
    (hct : req.contentType = "application/json")
    (hp : parseUint32 req.idParam = some pid)
    (hdec : decodeIntoInput req.body = .ok i)
    (hne : ¬(i.text = none ∧ i.completed = none)) :
    Handler.patch sv st req =
      (match sv.update st pid i with
       | (.ok t, st2) => (jsonResp 200 (.oneTodo t), st2)
       | (.error e, st2) =>
         if e = .inputInvalid then (jsonResp 422 (.errMsg (appErrMsg e)), st2)
         else if e = .notFound then (jsonResp 404 (.errMsg (appErrMsg e)), st2)
         else (jsonResp 500 (.errMsg "unexpected error"), st2)) := by
  obtain ⟨it, ic⟩ := i
  unfold Handler.patch
  rw [if_neg (by simp [hct]), hp, hdec]
  cases it <;> cases ic
  · exact absurd ⟨rfl, rfl⟩ hne
  · rfl
  · rfl
  · rfl

/-! The claims. -/

/-- Claim C1, amended.  For Delete the row count fully determines the
outcome: zero affected rows is NotFound, more than one is
StructuralConflict (ErrMultipleRowsAffected), and success happens exactly
on one affected row.  For Update, more than one affected row is
StructuralConflict, but zero affected rows is not mapped by the row
count: the outcome is whatever the follow-up read-back finds, so it is
NotFound exactly when the row is absent, and success (not NotFound) when
the targeted row exists but the UPDATE changed none of its values —
MySQL then reports zero affected rows. -/
theorem C1_row_count_outcome :
    (∀ (db : DB) (id : Nat), (sqlDelete db id).2 = 0 →
      (Repo.delete db id).1 = .error .notFound) ∧
    (∀ (db : DB) (id : Nat), (sqlDelete db id).2 > 1 →
      (Repo.delete db id).1 = .error .multipleRowsAffected) ∧
    (∀ (db : DB) (id : Nat), (Repo.delete db id).1 = .ok () →
      (sqlDelete db id).2 = 1) ∧
    (∀ (db : DB) (id : Nat) (i : TodoInput) (now : Nat),
      (sqlUpdate db id i now).2 > 1 →
      (Repo.update db id i now).1 = .error .multipleRowsAffected) ∧
    (∀ (db : DB) (id : Nat) (i : TodoInput) (now : Nat),
      (sqlUpdate db id i now).2 = 0 →
      (Repo.update db id i now).1 =
        (match selectById db id with
         | none => .error .notFound
         | some t => .ok t)) := by
  refine ⟨?_, ?_, ?_, ?_, ?_⟩
  · intro db id h
    unfold Repo.delete
    rw [h]
    rfl
  · intro db id h
    unfold Repo.delete
    rw [if_neg (by simp only [beq_iff_eq]; omega),
      if_pos (by simp only [bne_iff_ne, ne_eq]; omega)]
  · intro db id h
    unfold Repo.delete at h
    split at h
    · exact absurd h (by simp)
    · split at h
      · exact absurd h (by simp)
      · rename_i h0 h1
        simp only [beq_iff_eq] at h0
        simp only [bne_iff_ne, ne_eq, Decidable.not_not] at h1
        exact h1
  · intro db id i now h
    unfold Repo.update
    rw [if_pos h]
  · intro db id i now h
    unfold Repo.update
    rw [if_neg (by omega), sqlUpdate_state_of_zero h]
    cases hs : selectById db id
    · rfl
    · rfl

/-- Claim C1, counterexample to the claim as stated: on a well-formed
table holding the single row (id 1, text "a", completed false), an
Update of id 1 that supplies the very values already stored affects zero
rows, yet the operation succeeds — it does not map zero affected rows to
NotFound. -/
theorem C1_counterexample :
    WF ⟨[⟨1, "a", false, 0, 0⟩], 2⟩ ∧
    (sqlUpdate ⟨[⟨1, "a", false, 0, 0⟩], 2⟩ 1 ⟨some "a", some false⟩ 5).2 = 0 ∧
    (Repo.update ⟨[⟨1, "a", false, 0, 0⟩], 2⟩ 1 ⟨some "a", some false⟩ 5).1
      = .ok ⟨1, "a", false, 0, 0⟩ := by
  refine ⟨by decide, rfl, rfl⟩

/-- Witness for C1: the amended theorem applied at concrete inputs — an
empty table's Delete reports NotFound (0 rows affected), and a corrupted
table with a duplicated id yields StructuralConflict on both Delete and
Update (2 rows affected). -/
theorem C1_row_count_outcome_witness :
    (Repo.delete ⟨[], 5⟩ 3).1 = .error .notFound ∧
    (Repo.delete ⟨[⟨1, "a", false, 0, 0⟩, ⟨1, "b", true, 0, 0⟩], 2⟩ 1).1
      = .error .multipleRowsAffected ∧
    (Repo.update ⟨[⟨1, "a", false, 0, 0⟩, ⟨1, "b", true, 0, 0⟩], 2⟩ 1
        ⟨some "c", some true⟩ 7).1 = .error .multipleRowsAffected :=
  ⟨C1_row_count_outcome.1 ⟨[], 5⟩ 3 (by decide),
   C1_row_count_outcome.2.1 ⟨[⟨1, "a", false, 0, 0⟩, ⟨1, "b", true, 0, 0⟩], 2⟩ 1
     (by decide),
   C1_row_count_outcome.2.2.2.1 ⟨[⟨1, "a", false, 0, 0⟩, ⟨1, "b", true, 0, 0⟩], 2⟩ 1
     ⟨some "c", some true⟩ 7 (by decide)⟩

/-- Claim C2.  For every create (POST), full update (PUT) and partial
update (PATCH) request whose JSON body maps a recognized field ("text" or
"completed") to an explicit null, the handler answers 400 Bad Request and
the store state is untouched — this holds for an arbitrary service, so no
store operation can have been invoked. -/
theorem C2_explicit_null_rejected : ∀ (σ : Type) (sv : Svc σ) (st : σ)
    (req : Request) (fields : List (String × JVal)),
    req.contentType = "application/json" →
    req.body = .obj fields →
    (("text", JVal.null) ∈ collapse fields ∨
      ("completed", JVal.null) ∈ collapse fields) →
    ((Handler.post sv st req).1.status = 400 ∧ (Handler.post sv st req).2 = st) ∧
    ((Handler.put sv st req).1.status = 400 ∧ (Handler.put sv st req).2 = st) ∧
    ((Handler.patch sv st req).1.status = 400 ∧ (Handler.patch sv st req).2 = st) := by
  intro σ sv st req fields hct hbody hmem
  have hex : ∃ x, x ∈ collapse fields ∧ (x.2 == JVal.null) = true := by
    rcases hmem with hm | hm
    · exact ⟨_, hm, by rfl⟩
    · exact ⟨_, hm, by rfl⟩
  obtain ⟨kv, hkv⟩ := Option.isSome_iff_exists.mp (List.find?_isSome.mpr hex)
  have hdec : decodeIntoInput req.body = .error (.nullField kv.1) := by
    rw [hbody]
    simp only [decodeIntoInput]
    rw [hkv]
  refine ⟨?_, ?_, ?_⟩
  · unfold Handler.post
    rw [if_neg (by simp [hct]), hdec]
    exact ⟨rfl, rfl⟩
  · unfold Handler.put
    rw [if_neg (by simp [hct])]
    cases hp : parseUint32 req.idParam with
    | none => exact ⟨rfl, rfl⟩
    | some id =>
      rw [hdec]
      exact ⟨rfl, rfl⟩
  · unfold Handler.patch
    rw [if_neg (by simp [hct])]
    cases hp : parseUint32 req.idParam with
    | none => exact ⟨rfl, rfl⟩
    | some id =>
      rw [hdec]
      exact ⟨rfl, rfl⟩

/-- Witness for C2: a POST, PUT and PATCH carrying the body with field
"text" set to null are all rejected with 400 against the real
database-backed service, and the one-row database is unchanged. -/
theorem C2_explicit_null_rejected_witness :
    ((Handler.post (dbSvc 0) (⟨[⟨1, "a", false, 0, 0⟩], 2⟩ : DB)
        ⟨"application/json", "1", .obj [("text", .null)]⟩).1.status = 400 ∧
      (Handler.post (dbSvc 0) (⟨[⟨1, "a", false, 0, 0⟩], 2⟩ : DB)
        ⟨"application/json", "1", .obj [("text", .null)]⟩).2
        = ⟨[⟨1, "a", false, 0, 0⟩], 2⟩) ∧
    ((Handler.put (dbSvc 0) (⟨[⟨1, "a", false, 0, 0⟩], 2⟩ : DB)
        ⟨"application/json", "1", .obj [("text", .null)]⟩).1.status = 400 ∧
      (Handler.put (dbSvc 0) (⟨[⟨1, "a", false, 0, 0⟩], 2⟩ : DB)
        ⟨"application/json", "1", .obj [("text", .null)]⟩).2
        = ⟨[⟨1, "a", false, 0, 0⟩], 2⟩) ∧
    ((Handler.patch (dbSvc 0) (⟨[⟨1, "a", false, 0, 0⟩], 2⟩ : DB)
        ⟨"application/json", "1", .obj [("text", .null)]⟩).1.status = 400 ∧
      (Handler.patch (dbSvc 0) (⟨[⟨1, "a", false, 0, 0⟩], 2⟩ : DB)
        ⟨"application/json", "1", .obj [("text", .null)]⟩).2
        = ⟨[⟨1, "a", false, 0, 0⟩], 2⟩) :=
  C2_explicit_null_rejected DB (dbSvc 0) ⟨[⟨1, "a", false, 0, 0⟩], 2⟩
    ⟨"application/json", "1", .obj [("text", .null)]⟩ [("text", .null)]
    rfl rfl (Or.inl (by decide))

/-- Claim C3.  On a well-formed table holding a row for `id`, a partial
update that supplies only `text` produces a stored row whose `text` is
the supplied value and whose `completed` is unchanged; symmetrically for
a `completed`-only update the stored `text` is unchanged.  A partial
update with neither field present is rejected by the PATCH handler with
400 before any service call, leaving the state untouched. -/
theorem C3_partial_update_frame : ∀ (db : DB) (id : Nat) (t : Todo) (now : Nat),
    WF db → selectById db id = some t →
    (∀ s : String, ∃ r : Todo,
      (Service.update db now id ⟨some s, none⟩).1 = .ok r ∧
      r.text = s ∧ r.completed = t.completed ∧
      selectById (Service.update db now id ⟨some s, none⟩).2 id = some r) ∧
    (∀ b : Bool, ∃ r : Todo,
      (Service.update db now id ⟨none, some b⟩).1 = .ok r ∧
      r.completed = b ∧ r.text = t.text ∧
      selectById (Service.update db now id ⟨none, some b⟩).2 id = some r) ∧
    (∀ (σ : Type) (sv : Svc σ) (st : σ) (req : Request),
      req.contentType = "application/json" →
      decodeIntoInput req.body = .ok ⟨none, none⟩ →
      (Handler.patch sv st req).1.status = 400 ∧ (Handler.patch sv st req).2 = st) := by
  intro db id t now hWF hsel
  refine ⟨?_, ?_, ?_⟩
  · intro s
    obtain ⟨hupd, hsel2⟩ := repoUpdate_found hWF hsel ⟨some s, none⟩ now
    have hsvc : Service.update db now id ⟨some s, none⟩
        = (.ok (applyIfnull ⟨some s, none⟩ now t), (sqlUpdate db id ⟨some s, none⟩ now).1) := by
      unfold Service.update
      rw [if_neg (by simp)]
      exact hupd
    refine ⟨applyIfnull ⟨some s, none⟩ now t, ?_, ?_, ?_, ?_⟩
    · rw [hsvc]
    · exact (applyIfnull_fields ⟨some s, none⟩ now t).1
    · exact (applyIfnull_fields ⟨some s, none⟩ now t).2
    · rw [hsvc]
      exact hsel2
  · intro b
    obtain ⟨hupd, hsel2⟩ := repoUpdate_found hWF hsel ⟨none, some b⟩ now
    have hsvc : Service.update db now id ⟨none, some b⟩
        = (.ok (applyIfnull ⟨none, some b⟩ now t), (sqlUpdate db id ⟨none, some b⟩ now).1) := by
      unfold Service.update
      rw [if_neg (by simp)]
      exact hupd
    refine ⟨applyIfnull ⟨none, some b⟩ now t, ?_, ?_, ?_, ?_⟩
    · rw [hsvc]
    · exact (applyIfnull_fields ⟨none, some b⟩ now t).2
    · exact (applyIfnull_fields ⟨none, some b⟩ now t).1
    · rw [hsvc]
      exact hsel2
  · intro σ sv st req hct hdec
    unfold Handler.patch
    rw [if_neg (by simp [hct])]
    cases hp : parseUint32 req.idParam with
    | none => exact ⟨rfl, rfl⟩
    | some pid =>
      rw [hdec]
      exact ⟨rfl, rfl⟩

/-- Witness for C3: on the one-row table (id 1, "a", not completed), a
completed-only partial update keeps the text "a" while setting completed
to true, and a PATCH with the empty JSON object is rejected with 400
leaving the table unchanged. -/
theorem C3_partial_update_frame_witness :
    (∃ r : Todo,
      (Service.update ⟨[⟨1, "a", false, 0, 0⟩], 2⟩ 5 1 ⟨none, some true⟩).1 = .ok r ∧
      r.completed = true ∧ r.text = "a" ∧
      selectById (Service.update ⟨[⟨1, "a", false, 0, 0⟩], 2⟩ 5 1 ⟨none, some true⟩).2 1
        = some r) ∧
    ((Handler.patch (dbSvc 5) (⟨[⟨1, "a", false, 0, 0⟩], 2⟩ : DB)
        ⟨"application/json", "1", .obj []⟩).1.status = 400 ∧
      (Handler.patch (dbSvc 5) (⟨[⟨1, "a", false, 0, 0⟩], 2⟩ : DB)
        ⟨"application/json", "1", .obj []⟩).2 = ⟨[⟨1, "a", false, 0, 0⟩], 2⟩) :=
  ⟨(C3_partial_update_frame ⟨[⟨1, "a", false, 0, 0⟩], 2⟩ 1 ⟨1, "a", false, 0, 0⟩ 5
      (by decide) (by decide)).2.1 true,
   (C3_partial_update_frame ⟨[⟨1, "a", false, 0, 0⟩], 2⟩ 1 ⟨1, "a", false, 0, 0⟩ 5
      (by decide) (by decide)).2.2 DB (dbSvc 5) ⟨[⟨1, "a", false, 0, 0⟩], 2⟩
      ⟨"application/json", "1", .obj []⟩ rfl (by decide)⟩

/-- Claim C4.  A create whose decoded body has no `text` field is
rejected with 400 (missing required field) for any service; an accepted
create against the real store yields a 201 response carrying a record
whose text is the supplied text and whose completed flag is the supplied
value, defaulting to false when `completed` was absent, and that record
is persisted. -/
theorem C4_create_defaults :
    (∀ (σ : Type) (sv : Svc σ) (st : σ) (req : Request) (input : TodoInput),
      req.contentType = "application/json" →
      decodeIntoInput req.body = .ok input →
      input.text = none →
      Handler.post sv st req
        = (jsonResp 400 (.errMsg "missing field - provide text field"), st)) ∧
    (∀ (db : DB) (now : Nat) (req : Request) (input : TodoInput) (txt : String),
      WF db →
      req.contentType = "application/json" →
      decodeIntoInput req.body = .ok input →
      input.text = some txt →
      ∃ r : Todo,
        (Handler.post (dbSvc now) db req).1.status = 201 ∧
        (Handler.post (dbSvc now) db req).1.body = .oneTodo r ∧
        r.text = txt ∧
        r.completed = input.completed.getD false ∧
        selectById (Handler.post (dbSvc now) db req).2 r.id = some r) := by
  constructor
  · intro σ sv st req input hct hdec htext
    obtain ⟨it, ic⟩ := input
    simp only at htext
    subst htext
    unfold Handler.post
    rw [if_neg (by simp [hct]), hdec]
    rfl
  · intro db now req input txt hWF hct hdec htext
    obtain ⟨it, ic⟩ := input
    simp only at htext
    subst htext
    rw [handlerPost_decoded (dbSvc now) db req txt ic hct hdec]
    simp only [dbSvc]
    rw [serviceCreate_some hWF txt (ic.getD false) now]
    exact ⟨⟨db.nextId, txt, ic.getD false, now, now⟩, rfl, rfl, rfl, rfl,
      (repoCreate_fresh hWF txt (ic.getD false) now).2⟩

/-- Witness for C4: a POST without a text field gets 400 against the
real store, and a POST with text "walk" and no completed field creates a
completed-false record. -/
theorem C4_create_defaults_witness :
    (Handler.post (dbSvc 0) (⟨[], 1⟩ : DB) ⟨"application/json", "", .obj []⟩
      = (jsonResp 400 (.errMsg "missing field - provide text field"), ⟨[], 1⟩)) ∧
    (∃ r : Todo,
      (Handler.post (dbSvc 7) (⟨[], 1⟩ : DB)
        ⟨"application/json", "", .obj [("text", .jstr "walk")]⟩).1.status = 201 ∧
      (Handler.post (dbSvc 7) (⟨[], 1⟩ : DB)
        ⟨"application/json", "", .obj [("text", .jstr "walk")]⟩).1.body = .oneTodo r ∧
      r.text = "walk" ∧
      r.completed = (none : Option Bool).getD false ∧
      selectById (Handler.post (dbSvc 7) (⟨[], 1⟩ : DB)
        ⟨"application/json", "", .obj [("text", .jstr "walk")]⟩).2 r.id = some r) :=
  ⟨C4_create_defaults.1 DB (dbSvc 0) ⟨[], 1⟩ ⟨"application/json", "", .obj []⟩
      ⟨none, none⟩ rfl (by decide) rfl,
   C4_create_defaults.2 ⟨[], 1⟩ 7 ⟨"application/json", "", .obj [("text", .jstr "walk")]⟩
      ⟨some "walk", none⟩ "walk" (by decide) rfl (by decide) rfl⟩

/-- Claim C5.  On a well-formed table with a row for `id`, deleting that
id twice yields success then NotFound, and running a full update (both
fields supplied) twice with identical input yields success both times. -/
theorem C5_idempotence : ∀ (db : DB) (id : Nat) (t : Todo),
    WF db → selectById db id = some t →
    ((Repo.delete db id).1 = .ok () ∧
     (Repo.delete (Repo.delete db id).2 id).1 = .error .notFound) ∧
    (∀ (s : String) (b : Bool) (n1 n2 : Nat), ∃ r1 r2 : Todo,
      (Repo.update db id ⟨some s, some b⟩ n1).1 = .ok r1 ∧
      (Repo.update (Repo.update db id ⟨some s, some b⟩ n1).2 id ⟨some s, some b⟩ n2).1
        = .ok r2) := by
  intro db id t hWF hsel
  constructor
  · obtain ⟨hdel, hnone⟩ := repoDelete_found hWF hsel
    refine ⟨by rw [hdel], ?_⟩
    rw [hdel]
    show (Repo.delete (sqlDelete db id).1 id).1 = .error .notFound
    rw [repoDelete_missing hnone]
  · intro s b n1 n2
    obtain ⟨hupd1, hsel1⟩ := repoUpdate_found hWF hsel ⟨some s, some b⟩ n1
    have hWF1 : WF (sqlUpdate db id ⟨some s, some b⟩ n1).1 := WF_sqlUpdate hWF id _ n1
    obtain ⟨hupd2, hsel2⟩ := repoUpdate_found hWF1 hsel1 ⟨some s, some b⟩ n2
    refine ⟨applyIfnull ⟨some s, some b⟩ n1 t,
      applyIfnull ⟨some s, some b⟩ n2 (applyIfnull ⟨some s, some b⟩ n1 t), ?_, ?_⟩
    · rw [hupd1]
    · rw [hupd1]
      show (Repo.update (sqlUpdate db id ⟨some s, some b⟩ n1).1 id ⟨some s, some b⟩ n2).1
        = .ok (applyIfnull ⟨some s, some b⟩ n2 (applyIfnull ⟨some s, some b⟩ n1 t))
      rw [hupd2]

/-- Witness for C5: on the one-row table (id 1), Delete then Delete gives
success then NotFound, and the full update (text "b", completed true)
applied twice succeeds both times. -/
theorem C5_idempotence_witness :
    ((Repo.delete ⟨[⟨1, "a", false, 0, 0⟩], 2⟩ 1).1 = .ok () ∧
     (Repo.delete (Repo.delete ⟨[⟨1, "a", false, 0, 0⟩], 2⟩ 1).2 1).1
       = .error .notFound) ∧
    (∃ r1 r2 : Todo,
      (Repo.update ⟨[⟨1, "a", false, 0, 0⟩], 2⟩ 1 ⟨some "b", some true⟩ 5).1 = .ok r1 ∧
      (Repo.update (Repo.update ⟨[⟨1, "a", false, 0, 0⟩], 2⟩ 1 ⟨some "b", some true⟩ 5).2
          1 ⟨some "b", some true⟩ 9).1 = .ok r2) :=
  ⟨(C5_idempotence ⟨[⟨1, "a", false, 0, 0⟩], 2⟩ 1 ⟨1, "a", false, 0, 0⟩
      (by decide) (by decide)).1,
   (C5_idempotence ⟨[⟨1, "a", false, 0, 0⟩], 2⟩ 1 ⟨1, "a", false, 0, 0⟩
      (by decide) (by decide)).2 "b" true 5 9⟩

/-- Claim C6, amended.  The business layer's domain validation is purely
about field presence: Create rejects an input whose text pointer is nil,
and Update rejects an input with both fields nil, each as ErrInputInvalid
without touching the store; text that is present but equal to the empty
string is not rejected — a Create with empty text succeeds and persists a
record whose text is empty. -/
theorem C6_domain_validation :
    (∀ (db : DB) (now : Nat) (i : TodoInput), i.text = none →
      Service.create db now i = (.error .inputInvalid, db)) ∧
    (∀ (db : DB) (now : Nat) (id : Nat) (i : TodoInput),
      i.text = none → i.completed = none →
      Service.update db now id i = (.error .inputInvalid, db)) ∧
    (∃ r : Todo, (Service.create ⟨[], 1⟩ 0 ⟨some "", some false⟩).1 = .ok r ∧
      r.text = "") := by
  refine ⟨?_, ?_, ?_⟩
  · intro db now i h
    unfold Service.create
    rw [if_pos (by rw [h]; rfl)]
  · intro db now id i h1 h2
    unfold Service.update
    rw [if_pos (by rw [h1, h2]; rfl)]
  · exact ⟨⟨1, "", false, 0, 0⟩, rfl, rfl⟩

/-- Claim C6, counterexample to the claim as stated: the business layer
accepts a Create whose text is present but empty — on an empty table it
returns success and stores a record with text equal to the empty string,
instead of rejecting it as unprocessable.  An Update supplying empty text
to an existing row likewise succeeds. -/
theorem C6_counterexample :
    (Service.create ⟨[], 1⟩ 0 ⟨some "", some false⟩).1
      = .ok ⟨1, "", false, 0, 0⟩ ∧
    (Service.create ⟨[], 1⟩ 0 ⟨some "", some false⟩).2
      = ⟨[⟨1, "", false, 0, 0⟩], 2⟩ ∧
    (Service.update ⟨[⟨1, "a", false, 0, 0⟩], 2⟩ 5 1 ⟨some "", none⟩).1
      = .ok ⟨1, "", false, 0, 5⟩ := by
  refine ⟨rfl, rfl, rfl⟩

/-- Witness for C6: Create with a nil text pointer is rejected as
invalid-input with the empty table unchanged. -/
theorem C6_domain_validation_witness :
    Service.create ⟨[], 1⟩ 0 ⟨none, some true⟩ = (.error .inputInvalid, ⟨[], 1⟩) :=
  C6_domain_validation.1 ⟨[], 1⟩ 0 ⟨none, some true⟩ rfl

/-- Claim C7.  Create is an INSERT followed by a read-back SELECT of the
full persisted record: on a well-formed table it returns exactly the
appended row, fully populated with the assigned id and timestamps.  When
the read-back finds no row for the inserted id, the resulting error is
the raw sql.ErrNoRows — not ErrNotFound — and the POST handler turns it
into the opaque 500 "unexpected error", never into a 404. -/
theorem C7_create_readback :
    (∀ (db : DB) (txt : String) (c : Bool) (now : Nat), WF db →
      Repo.create db ⟨some txt, some c⟩ now =
        (.ok ⟨db.nextId, txt, c, now, now⟩,
         ⟨db.rows ++ [⟨db.nextId, txt, c, now, now⟩], db.nextId + 1⟩)) ∧
    (∀ (n : Nat) (rb : Nat → Except SqlErr Todo), rb n = .error .noRows →
      createFlow (.ok n) rb = .error .sqlNoRows ∧
      createFlow (.ok n) rb ≠ .error .notFound) ∧
    (∀ (req : Request) (txt : String) (ic : Option Bool) (n : Nat)
        (rb : Nat → Except SqlErr Todo) (st : Unit),
      req.contentType = "application/json" →
      decodeIntoInput req.body = .ok ⟨some txt, ic⟩ →
      rb n = .error .noRows →
      (Handler.post (createOutcomeSvc (createFlow (.ok n) rb)) st req).1
        = jsonResp 500 (.errMsg "unexpected error") ∧
      (Handler.post (createOutcomeSvc (createFlow (.ok n) rb)) st req).1.status
        ≠ 404) := by
  refine ⟨?_, ?_, ?_⟩
  · intro db txt c now hWF
    exact (repoCreate_fresh hWF txt c now).1
  · intro n rb hrb
    have hflow : createFlow (.ok n) rb = .error .sqlNoRows := by
      show (match rb n with
        | Except.error e => (Except.error (sqlErrToApp e) : Except AppErr Todo)
        | Except.ok t => Except.ok t) = Except.error AppErr.sqlNoRows
      rw [hrb]
      rfl
    rw [hflow]
    exact ⟨rfl, by decide⟩
  · intro req txt ic n rb st hct hdec hrb
    have hflow : createFlow (.ok n) rb = .error .sqlNoRows := by
      show (match rb n with
        | Except.error e => (Except.error (sqlErrToApp e) : Except AppErr Todo)
        | Except.ok t => Except.ok t) = Except.error AppErr.sqlNoRows
      rw [hrb]
      rfl
    rw [handlerPost_decoded (createOutcomeSvc (createFlow (.ok n) rb)) st req txt ic
      hct hdec]
    simp only [createOutcomeSvc]
    rw [hflow]
    refine ⟨rfl, ?_⟩
    show (500 : Nat) ≠ 404
    decide

/-- Witness for C7: a fresh-table Create returns the persisted row
(id 1, given text and flag, both timestamps set to the clock), and a POST
whose repository read-back reports sql.ErrNoRows yields the opaque 500
response. -/
theorem C7_create_readback_witness :
    Repo.create ⟨[], 1⟩ ⟨some "walk", some false⟩ 3 =
      (.ok ⟨1, "walk", false, 3, 3⟩, ⟨[⟨1, "walk", false, 3, 3⟩], 2⟩) ∧
    (Handler.post (createOutcomeSvc (createFlow (.ok 1) (fun _ => .error .noRows))) ()
        ⟨"application/json", "", .obj [("text", .jstr "walk")]⟩).1
      = jsonResp 500 (.errMsg "unexpected error") :=
  ⟨C7_create_readback.1 ⟨[], 1⟩ "walk" false 3 (by decide),
   (C7_create_readback.2.2 ⟨"application/json", "", .obj [("text", .jstr "walk")]⟩
      "walk" none 1 (fun _ => .error .noRows) () rfl (by decide) rfl).1⟩

/-- Claim C8.  For every store failure other than ErrNotFound and
ErrInputInvalid — in particular for a driver failure with an arbitrary
message — each of the six handlers answers 500 with the fixed body
mapping "error" to "unexpected error"; the response is a constant, so no
text of the underlying store error reaches the caller. -/
theorem C8_opaque_errors : ∀ (e : AppErr), e ≠ .notFound → e ≠ .inputInvalid →
    ∀ (st : Unit) (req : Request),
    ((Handler.getAll (constSvc e) st).1 = jsonResp 500 (.errMsg "unexpected error")) ∧
    (∀ pid : Nat, parseUint32 req.idParam = some pid →
      (Handler.getById (constSvc e) st req).1
        = jsonResp 500 (.errMsg "unexpected error")) ∧
    (∀ pid : Nat, parseUint32 req.idParam = some pid →
      (Handler.delete (constSvc e) st req).1
        = jsonResp 500 (.errMsg "unexpected error")) ∧
    (∀ (txt : String) (ic : Option Bool),
      req.contentType = "application/json" →
      decodeIntoInput req.body = .ok ⟨some txt, ic⟩ →
      (Handler.post (constSvc e) st req).1
        = jsonResp 500 (.errMsg "unexpected error")) ∧
    (∀ (pid : Nat) (txt : String) (b : Bool),
      req.contentType = "application/json" →
      parseUint32 req.idParam = some pid →
      decodeIntoInput req.body = .ok ⟨some txt, some b⟩ →
      (Handler.put (constSvc e) st req).1
        = jsonResp 500 (.errMsg "unexpected error")) ∧
    (∀ (pid : Nat) (i : TodoInput),
      req.contentType = "application/json" →
      parseUint32 req.idParam = some pid →
      decodeIntoInput req.body = .ok i →
      ¬(i.text = none ∧ i.completed = none) →
      (Handler.patch (constSvc e) st req).1
        = jsonResp 500 (.errMsg "unexpected error")) := by
  intro e hnf hnii st req
  refine ⟨rfl, ?_, ?_, ?_, ?_, ?_⟩
  · intro pid hp
    unfold Handler.getById
    rw [hp]
    show (if e = .notFound then _ else _ : Response × Unit).1 = _
    rw [if_neg hnf]
  · intro pid hp
    unfold Handler.delete
    rw [hp]
    show (if e = .notFound then _ else _ : Response × Unit).1 = _
    rw [if_neg hnf]
  · intro txt ic hct hdec
    rw [handlerPost_decoded (constSvc e) st req txt ic hct hdec]
    show (if e = .inputInvalid then _ else _ : Response × Unit).1 = _
    rw [if_neg hnii]
  · intro pid txt b hct hp hdec
    rw [handlerPut_decoded (constSvc e) st req pid txt b hct hp hdec]
    show (if e = .inputInvalid then _
      else if e = .notFound then _ else _ : Response × Unit).1 = _
    rw [if_neg hnii, if_neg hnf]
  · intro pid i hct hp hdec hne
    rw [handlerPatch_decoded (constSvc e) st req pid i hct hp hdec hne]
    show (if e = .inputInvalid then _
      else if e = .notFound then _ else _ : Response × Unit).1 = _
    rw [if_neg hnii, if_neg hnf]

/-- Witness for C8: with the store failing as "database is down", GET,
DELETE and PUT all answer the constant opaque 500 body. -/
theorem C8_opaque_errors_witness :
    (Handler.getAll (constSvc (.dbFailure "database is down")) ()).1
      = jsonResp 500 (.errMsg "unexpected error") ∧
    (Handler.delete (constSvc (.dbFailure "database is down")) ()
        ⟨"", "3", .malformed⟩).1 = jsonResp 500 (.errMsg "unexpected error") ∧
    (Handler.put (constSvc (.dbFailure "database is down")) ()
        ⟨"application/json", "3",
          .obj [("text", .jstr "call mom"), ("completed", .jbool true)]⟩).1
      = jsonResp 500 (.errMsg "unexpected error") :=
  ⟨(C8_opaque_errors (.dbFailure "database is down") (by decide) (by decide) ()
      ⟨"", "3", .malformed⟩).1,
   (C8_opaque_errors (.dbFailure "database is down") (by decide) (by decide) ()
      ⟨"", "3", .malformed⟩).2.2.1 3 (by decide),
   (C8_opaque_errors (.dbFailure "database is down") (by decide) (by decide) ()
      ⟨"application/json", "3",
        .obj [("text", .jstr "call mom"), ("completed", .jbool true)]⟩).2.2.2.2.1
      3 "call mom" true rfl (by decide) (by decide)⟩

/-- Claim C9.  POST, PUT and PATCH reject any request whose media type is
not "application/json" with the constant 415 response and unchanged
state, whatever body, id parameter, or service is behind — so nothing is
decoded and no store operation runs; GET-by-id and DELETE produce the
same result for any two Content-Type values, i.e. they never inspect
it. -/
theorem C9_content_type_gate :
    (∀ (σ : Type) (sv : Svc σ) (st : σ) (req : Request),
      req.contentType ≠ "application/json" →
      Handler.post sv st req
        = (jsonResp 415 (.errMsg "Content-Type must be application/json"), st) ∧
      Handler.put sv st req
        = (jsonResp 415 (.errMsg "Content-Type must be application/json"), st) ∧
      Handler.patch sv st req
        = (jsonResp 415 (.errMsg "Content-Type must be application/json"), st)) ∧
    (∀ (σ : Type) (sv : Svc σ) (st : σ) (p : String) (b : Body) (ct1 ct2 : String),
      Handler.getById sv st ⟨ct1, p, b⟩ = Handler.getById sv st ⟨ct2, p, b⟩ ∧
      Handler.delete sv st ⟨ct1, p, b⟩ = Handler.delete sv st ⟨ct2, p, b⟩) := by
  constructor
  · intro σ sv st req hct
    refine ⟨?_, ?_, ?_⟩
    · unfold Handler.post
      rw [if_pos hct]
    · unfold Handler.put
      rw [if_pos hct]
    · unfold Handler.patch
      rw [if_pos hct]
  · intro σ sv st p b ct1 ct2
    exact ⟨rfl, rfl⟩

/-- Witness for C9: a POST with Content-Type "text/plain" is answered 415
with the empty table unchanged, and a DELETE behaves identically under
"text/plain" and "application/json". -/
theorem C9_content_type_gate_witness :
    (Handler.post (dbSvc 0) (⟨[], 1⟩ : DB)
        ⟨"text/plain", "1", .obj [("text", .jstr "x")]⟩
      = (jsonResp 415 (.errMsg "Content-Type must be application/json"), ⟨[], 1⟩)) ∧
    Handler.delete (dbSvc 0) (⟨[], 1⟩ : DB) ⟨"text/plain", "1", .malformed⟩
      = Handler.delete (dbSvc 0) (⟨[], 1⟩ : DB) ⟨"application/json", "1", .malformed⟩ :=
  ⟨(C9_content_type_gate.1 DB (dbSvc 0) ⟨[], 1⟩
      ⟨"text/plain", "1", .obj [("text", .jstr "x")]⟩ (by decide)).1,
   (C9_content_type_gate.2 DB (dbSvc 0) ⟨[], 1⟩ "1" .malformed
      "text/plain" "application/json").2⟩

/-- Claim C10.  Whenever the `:id` path parameter fails to parse as a
base-10 unsigned 32-bit integer, getById and delete — and put and patch
on JSON requests — answer 400 with unchanged state for any service, so
no store call happens; every successfully parsed value is below `2^32`
and is forwarded to the store verbatim (the recording service observes
exactly the parsed value); the parameter "0" parses to 0 and a DELETE on
it forwards id 0 to the store. -/
theorem C10_id_parsing :
    (∀ (σ : Type) (sv : Svc σ) (st : σ) (req : Request),
      parseUint32 req.idParam = none →
      Handler.getById sv st req = (jsonResp 400 (.errMsg "ID must be an integer"), st) ∧
      Handler.delete sv st req = (jsonResp 400 (.errMsg "ID must be an integer"), st) ∧
      (req.contentType = "application/json" →
        Handler.put sv st req = (jsonResp 400 (.errMsg "ID must be an integer"), st) ∧
        Handler.patch sv st req
          = (jsonResp 400 (.errMsg "ID must be an integer"), st))) ∧
    (∀ (s : String) (n : Nat), parseUint32 s = some n → n < 4294967296) ∧
    (∀ (req : Request) (n : Nat), parseUint32 req.idParam = some n →
      (Handler.delete recSvc [] req).2 = [n] ∧
      (Handler.delete recSvc [] req).1 = jsonResp 204 .empty) ∧
    parseUint32 "0" = some 0 := by
  refine ⟨?_, ?_, ?_, rfl⟩
  · intro σ sv st req hp
    refine ⟨?_, ?_, fun hct => ⟨?_, ?_⟩⟩
    · unfold Handler.getById
      rw [hp]
    · unfold Handler.delete
      rw [hp]
    · unfold Handler.put
      rw [if_neg (by simp [hct]), hp]
    · unfold Handler.patch
      rw [if_neg (by simp [hct]), hp]
  · intro s n h
    unfold parseUint32 at h
    split at h
    · exact absurd h (by simp)
    · split at h
      · split at h
        · rename_i hlt
          cases h
          exact hlt
        · exact absurd h (by simp)
      · exact absurd h (by simp)
  · intro req n hp
    unfold Handler.delete
    rw [hp]
    exact ⟨rfl, rfl⟩

/-- Witness for C10: the non-numeric "abc", the negative "-1" and the
out-of-range "4294967296" are each rejected with 400 before any service
call, while "0" is parsed and the store receives id 0. -/
theorem C10_id_parsing_witness :
    Handler.delete recSvc ([] : List Nat) ⟨"", "abc", .malformed⟩
      = (jsonResp 400 (.errMsg "ID must be an integer"), []) ∧
    Handler.getById (dbSvc 0) (⟨[], 1⟩ : DB) ⟨"", "-1", .malformed⟩
      = (jsonResp 400 (.errMsg "ID must be an integer"), ⟨[], 1⟩) ∧
    Handler.delete recSvc ([] : List Nat) ⟨"", "4294967296", .malformed⟩
      = (jsonResp 400 (.errMsg "ID must be an integer"), []) ∧
    (Handler.delete recSvc ([] : List Nat) ⟨"", "0", .malformed⟩).2 = [0] :=
  ⟨(C10_id_parsing.1 (List Nat) recSvc [] ⟨"", "abc", .malformed⟩ (by decide)).2.1,
   (C10_id_parsing.1 DB (dbSvc 0) ⟨[], 1⟩ ⟨"", "-1", .malformed⟩ (by decide)).1,
   (C10_id_parsing.1 (List Nat) recSvc [] ⟨"", "4294967296", .malformed⟩
      (by decide)).2.1,
   (C10_id_parsing.2.2.1 ⟨"", "0", .malformed⟩ 0 (by decide)).1⟩

end TwoDo
